import Mathlib

/-!
Verification of the orchestration core of the restaurant voice-agent
(`src/02_restaurant_agent.py`): the shared user-data record, the chat-history
truncation algorithm `_truncate_chat_ctx`, the handoff helper
`_transfer_to_agent`, the per-agent tools, and the `on_enter` context-merge
protocol.

Modelling conventions:
* Python lists become `List`, optional fields become `Option`.
* Python truthiness (`not x`) on optional strings is "absent or empty string";
  on the optional numeric `expense` it is "absent or zero"; on the `order`
  list it is "empty".
* Tool handlers are pure functions from the session state to an updated
  user-data record plus a result that is either a plain string reply or a
  handoff pair `(target, message)`, exactly mirroring the Python return
  values.  A dictionary `KeyError` on agent lookup is modelled as `none`.
* Python float values carried by `expense` are modelled as rationals; the
  exact text produced when interpolating a float or a list into an f-string
  is abstracted by simple concatenation, since no verified property depends
  on that formatting.
-/

namespace Restaurant

/-- Roles a chat message can carry (`item.role` in the source). -/
inductive Role
  | system
  | user
  | assistant
deriving DecidableEq, Repr

/-- A chat-context item (`llm.ChatItem`): a message, a function call, or a
function-call output, each with an id used for de-duplication. -/
inductive ChatItem
  | message (role : Role) (content : String) (id : String)
  | function_call (name : String) (arguments : String) (id : String)
  | function_call_output (output : String) (id : String)
deriving DecidableEq, Repr

/-- The `item.id` accessor. -/
def ChatItem.id : ChatItem → String
  | .message _ _ i => i
  | .function_call _ _ i => i
  | .function_call_output _ i => i

/-- Whether `item.type` is in `["function_call", "function_call_output"]`. -/
def ChatItem.isFunctionCallType : ChatItem → Bool
  | .function_call _ _ _ => true
  | .function_call_output _ _ => true
  | _ => false

/-- Whether the item is a message with role `system`
(`item.type == "message" and item.role == "system"`). -/
def ChatItem.isSystemMessage : ChatItem → Bool
  | .message .system _ _ => true
  | _ => false

/-- The inner `_valid_item` filter of `_truncate_chat_ctx`: drop system
messages unless `keep_system_message`, drop function_call /
function_call_output items unless `keep_function_call`. -/
def _valid_item (keep_system_message keep_function_call : Bool)
    (item : ChatItem) : Bool :=
  if !keep_system_message && item.isSystemMessage then false
  else if !keep_function_call && item.isFunctionCallType then false
  else true

/-- The backward scan of `_truncate_chat_ctx`: iterate over the (already
reversed) item list, append each item passing `_valid_item` to `new_items`,
and stop as soon as `len(new_items) >= keep_last_n_messages` (the check runs
at the end of every loop iteration, whether or not an item was appended). -/
def truncateLoop (keep_system_message keep_function_call : Bool) (n : Nat) :
    List ChatItem → List ChatItem → List ChatItem
  | [], new_items => new_items
  | item :: rest, new_items =>
    if _valid_item keep_system_message keep_function_call item then
      if n ≤ (new_items ++ [item]).length then new_items ++ [item]
      else truncateLoop keep_system_message keep_function_call n rest
        (new_items ++ [item])
    else
      if n ≤ new_items.length then new_items
      else truncateLoop keep_system_message keep_function_call n rest new_items

/-- The final front trim of `_truncate_chat_ctx`: pop leading items whose
type is function_call / function_call_output. -/
def dropLeadingToolItems : List ChatItem → List ChatItem
  | [] => []
  | item :: rest =>
    if item.isFunctionCallType then dropLeadingToolItems rest
    else item :: rest

/-- `BaseAgent._truncate_chat_ctx(items, keep_last_n_messages,
keep_system_message, keep_function_call)`: scan `reversed(items)` keeping at
most the last `keep_last_n_messages` items that pass `_valid_item`, restore
chronological order, then drop leading function_call / function_call_output
items.  The Python defaults are `6, False, False`; call sites pass the
arguments positionally here. -/
def _truncate_chat_ctx (items : List ChatItem) (keep_last_n_messages : Nat)
    (keep_system_message : Bool) (keep_function_call : Bool) :
    List ChatItem :=
  dropLeadingToolItems
    ((truncateLoop keep_system_message keep_function_call keep_last_n_messages
        items.reverse []).reverse)

/-- The truncation exactly as invoked with all parameters left at their
Python defaults (`keep_last_n_messages=6, keep_system_message=False,
keep_function_call=False`). -/
def _truncate_chat_ctx_default (items : List ChatItem) : List ChatItem :=
  _truncate_chat_ctx items 6 false false

example :
    _truncate_chat_ctx
      [ChatItem.message Role.user "hola" "u1",
       ChatItem.function_call "f" "a" "c1",
       ChatItem.function_call_output "ok" "c1"] 6 false true
      = [ChatItem.message Role.user "hola" "u1",
         ChatItem.function_call "f" "a" "c1",
         ChatItem.function_call_output "ok" "c1"] := by decide

example :
    _truncate_chat_ctx_default
      [ChatItem.function_call "f" "a" "c1",
       ChatItem.message Role.user "hola" "u1"]
      = [ChatItem.message Role.user "hola" "u1"] := by decide

example :
    _truncate_chat_ctx [ChatItem.message Role.user "hola" "u1"] 0 false false
      = [ChatItem.message Role.user "hola" "u1"] := by decide

/-- The four specialist agents registered by the entrypoint. -/
inductive AgentName
  | greeter
  | reservation
  | takeaway
  | checkout
deriving DecidableEq, Repr

/-- Modelled from the spec: the shared SessionStore / `UserData` record
(its defining module `src/models.py` is not part of the source snapshot;
fields and defaults follow spec §3 and every access made by
`02_restaurant_agent.py`).  `agent_registry` is kept as the separate
immutable map `agents` below; `expense` is an optional decimal, modelled as
an optional rational. -/
structure UserData where
  customer_name : Option String
  customer_phone : Option String
  reservation_time : Option String
  order : List String
  customer_credit_card : Option String
  customer_credit_card_expiry : Option String
  customer_credit_card_cvv : Option String
  expense : Option ℚ
  checked_out : Bool
  prev_agent : Option AgentName
deriving DecidableEq, Repr

/-- The fresh `UserData()` record built by the entrypoint: nothing set. -/
def initialUserData : UserData where
  customer_name := none
  customer_phone := none
  reservation_time := none
  order := []
  customer_credit_card := none
  customer_credit_card_expiry := none
  customer_credit_card_cvv := none
  expense := none
  checked_out := false
  prev_agent := none

/-- Python truthiness of an optional string field: `not x` holds when the
field is absent or the empty string. -/
def optStrTruthy : Option String → Bool
  | none => false
  | some s => !s.isEmpty

/-- Python truthiness of the optional numeric `expense` field: `not x` holds
when the field is absent or equals zero. -/
def optRatTruthy : Option ℚ → Bool
  | none => false
  | some q => decide (q ≠ 0)

/-- The immutable agent registry populated once by the entrypoint
(`userdata.agents.update({"greeter": ..., "reservation": ..., "takeaway":
..., "checkout": ...})`); an absent key means a `KeyError`. -/
def agents : String → Option AgentName := fun name =>
  if name = "greeter" then some AgentName.greeter
  else if name = "reservation" then some AgentName.reservation
  else if name = "takeaway" then some AgentName.takeaway
  else if name = "checkout" then some AgentName.checkout
  else none

/-- What a tool execution returns: either a plain string reply or a handoff
pair `(target agent, transition message)`. -/
inductive ToolResult
  | reply (message : String)
  | handoff (target : AgentName) (message : String)
deriving DecidableEq, Repr

/-- The session-level state the tools observe: the shared user-data record
plus the session's current agent. -/
structure SessionState where
  userdata : UserData
  current : AgentName
deriving DecidableEq, Repr

/-- Session state at conversation start: fresh `UserData`, current agent
`greeter`. -/
def initialState : SessionState where
  userdata := initialUserData
  current := AgentName.greeter

/-- `BaseAgent._transfer_to_agent(name, context)`: look the target up in
`userdata.agents` (a missing key raises before anything is mutated, hence
`none`), record the session's current agent in `userdata.prev_agent`, and
return the target together with the literal transition message. -/
def _transfer_to_agent (name : String) (st : SessionState) :
    Option (UserData × ToolResult) :=
  match agents name with
  | none => none
  | some next_agent =>
    some ({ st.userdata with prev_agent := some st.current },
      ToolResult.handoff next_agent ("Transferring to " ++ name ++ "."))

/-- Module-level tool `update_name`. -/
def update_name (name : String) (st : SessionState) :
    Option (UserData × ToolResult) :=
  some ({ st.userdata with customer_name := some name },
    ToolResult.reply ("The name is updated to " ++ name))

/-- Module-level tool `update_phone`. -/
def update_phone (phone : String) (st : SessionState) :
    Option (UserData × ToolResult) :=
  some ({ st.userdata with customer_phone := some phone },
    ToolResult.reply ("The phone number is updated to " ++ phone))

/-- Module-level tool `to_greeter`: transfer the session's current agent to
"greeter". -/
def to_greeter (st : SessionState) : Option (UserData × ToolResult) :=
  _transfer_to_agent "greeter" st

/-- `Greeter.to_reservation`. -/
def to_reservation (st : SessionState) : Option (UserData × ToolResult) :=
  _transfer_to_agent "reservation" st

/-- `Greeter.to_takeaway` and `Checkout.to_takeaway` (identical bodies). -/
def to_takeaway (st : SessionState) : Option (UserData × ToolResult) :=
  _transfer_to_agent "takeaway" st

/-- `Reservation.update_reservation_time`. -/
def update_reservation_time (time : String) (st : SessionState) :
    Option (UserData × ToolResult) :=
  some ({ st.userdata with reservation_time := some time },
    ToolResult.reply ("The reservation time is updated to " ++ time))

/-- `Reservation.confirm_reservation`: require a truthy name and phone, then
a truthy reservation time, then transfer back to the greeter. -/
def confirm_reservation (st : SessionState) :
    Option (UserData × ToolResult) :=
  if !optStrTruthy st.userdata.customer_name
      || !optStrTruthy st.userdata.customer_phone then
    some (st.userdata,
      ToolResult.reply "Please provide your name and phone number first.")
  else if !optStrTruthy st.userdata.reservation_time then
    some (st.userdata, ToolResult.reply "Please provide reservation time first.")
  else
    _transfer_to_agent "greeter" st

/-- `Takeaway.update_order`: replaces the whole order list.  The Python
f-string rendering of the list is abstracted by concatenating the items. -/
def update_order (items : List String) (st : SessionState) :
    Option (UserData × ToolResult) :=
  some ({ st.userdata with order := items },
    ToolResult.reply
      ("The order is updated to " ++ String.intercalate ", " items))

/-- `Takeaway.to_checkout`: require a non-empty order, then transfer to
checkout. -/
def to_checkout (st : SessionState) : Option (UserData × ToolResult) :=
  if st.userdata.order.isEmpty then
    some (st.userdata,
      ToolResult.reply "No takeaway order found. Please make an order first.")
  else
    _transfer_to_agent "checkout" st

/-- `Checkout.confirm_expense`: store the argument unconditionally. -/
def confirm_expense (expense : ℚ) (st : SessionState) :
    Option (UserData × ToolResult) :=
  some ({ st.userdata with expense := some expense },
    ToolResult.reply ("The expense is confirmed to be " ++ toString expense))

/-- `Checkout.update_credit_card`: store the three card fields. -/
def update_credit_card (number expiry cvv : String) (st : SessionState) :
    Option (UserData × ToolResult) :=
  some ({ st.userdata with
      customer_credit_card := some number,
      customer_credit_card_expiry := some expiry,
      customer_credit_card_cvv := some cvv },
    ToolResult.reply ("The credit card number is updated to " ++ number))

/-- `Checkout.confirm_checkout`: require a truthy expense, then truthy card
number, expiry and cvv; on success set `checked_out` and call `to_greeter`
(the session's current agent is still the one that ran the tool). -/
def confirm_checkout (st : SessionState) : Option (UserData × ToolResult) :=
  if !optRatTruthy st.userdata.expense then
    some (st.userdata, ToolResult.reply "Please confirm the expense first.")
  else if !optStrTruthy st.userdata.customer_credit_card
      || !optStrTruthy st.userdata.customer_credit_card_expiry
      || !optStrTruthy st.userdata.customer_credit_card_cvv then
    some (st.userdata,
      ToolResult.reply "Please provide the credit card information first.")
  else
    to_greeter { st with userdata := { st.userdata with checked_out := true } }

/-- The combined guard of `confirm_checkout`: a truthy expense and all three
card fields truthy. -/
def checkoutReady (u : UserData) : Bool :=
  optRatTruthy u.expense && optStrTruthy u.customer_credit_card
    && optStrTruthy u.customer_credit_card_expiry
    && optStrTruthy u.customer_credit_card_cvv

/-- One invocation of any declared tool, with its model-supplied
arguments.  `to_takeaway` covers both the Greeter and the Checkout method
(their bodies are identical). -/
inductive ToolCall
  | update_name (name : String)
  | update_phone (phone : String)
  | to_greeter
  | to_reservation
  | to_takeaway
  | update_reservation_time (time : String)
  | confirm_reservation
  | update_order (items : List String)
  | to_checkout
  | confirm_expense (expense : ℚ)
  | update_credit_card (number : String) (expiry : String) (cvv : String)
  | confirm_checkout
deriving DecidableEq, Repr

/-- Dispatch of a tool call to its handler. -/
def execTool : ToolCall → SessionState → Option (UserData × ToolResult)
  | .update_name n, st => update_name n st
  | .update_phone p, st => update_phone p st
  | .to_greeter, st => to_greeter st
  | .to_reservation, st => to_reservation st
  | .to_takeaway, st => to_takeaway st
  | .update_reservation_time t, st => update_reservation_time t st
  | .confirm_reservation, st => confirm_reservation st
  | .update_order items, st => update_order items st
  | .to_checkout, st => to_checkout st
  | .confirm_expense e, st => confirm_expense e st
  | .update_credit_card n e c, st => update_credit_card n e c st
  | .confirm_checkout, st => confirm_checkout st

/-- Modelled from the spec: the Orchestrator / ToolDispatcher step that is
implemented inside the external agent framework.  After a tool executes
against the shared store, a plain string leaves the current agent unchanged,
while a handoff pair makes its target the current agent (§4.4). -/
def applyDirective (st : SessionState) (u : UserData) (r : ToolResult) :
    SessionState :=
  match r with
  | .reply _ => { userdata := u, current := st.current }
  | .handoff target _ => { userdata := u, current := target }

/-- One full tool step: execute the tool against the session state, then let
the orchestrator apply the returned directive.  `none` models the (never
reached) `KeyError` on an unregistered handoff target. -/
def stepTool (tc : ToolCall) (st : SessionState) :
    Option (SessionState × ToolResult) :=
  match execTool tc st with
  | none => none
  | some (u, r) => some (applyDirective st u r, r)

/-- Names of the declared tools, used to record which agent offers which
tool. -/
inductive ToolName
  | update_name
  | update_phone
  | to_greeter
  | to_reservation
  | to_takeaway
  | update_reservation_time
  | confirm_reservation
  | update_order
  | to_checkout
  | confirm_expense
  | update_credit_card
  | confirm_checkout
deriving DecidableEq, Repr

/-- The tool set each agent declares (constructor `tools=[...]` lists plus
`@function_tool` methods, in source order). -/
def agentTools : AgentName → List ToolName
  | .greeter => [.to_reservation, .to_takeaway]
  | .reservation =>
    [.update_name, .update_phone, .to_greeter, .update_reservation_time,
     .confirm_reservation]
  | .takeaway => [.to_greeter, .update_order, .to_checkout]
  | .checkout =>
    [.update_name, .update_phone, .to_greeter, .confirm_expense,
     .update_credit_card, .confirm_checkout, .to_takeaway]

/-- The observable outcome of `BaseAgent.on_enter`: the rebuilt chat context
and the `tool_choice` values of the reply generations it triggers. -/
structure EnterResult where
  items : List ChatItem
  reply_tool_choices : List String
deriving DecidableEq, Repr

/-- `BaseAgent.on_enter`, as a pure function of what it reads: the agent's
own context items (`self.chat_ctx.copy()`), the previous agent's items when
`userdata.prev_agent` is set, the string `userdata.summarize()` returns at
that moment (opaque here: `summarize` lives in the absent `src/models.py`),
and the id the framework mints for the appended system message.  It truncates
the previous context with `keep_function_call=True` (other parameters left at
their defaults), drops items whose id already occurs in the copy, appends the
remainder, appends one system message quoting the summary, and requests
exactly one reply generation with `tool_choice="none"`. -/
def on_enter (agent_name : String) (own_items : List ChatItem)
    (prev_items : Option (List ChatItem)) (summary : String)
    (fresh_id : String) : EnterResult :=
  let chat_ctx := own_items
  let chat_ctx :=
    match prev_items with
    | none => chat_ctx
    | some pitems =>
      let items_copy := _truncate_chat_ctx pitems 6 false true
      let existing_ids := chat_ctx.map ChatItem.id
      let items_copy :=
        items_copy.filter (fun item => !existing_ids.contains item.id)
      chat_ctx ++ items_copy
  let chat_ctx := chat_ctx ++
    [ChatItem.message Role.system
      ("Eres el agente " ++ agent_name ++
        ". Los datos actuales del usuario son " ++ summary)
      fresh_id]
  { items := chat_ctx, reply_tool_choices := ["none"] }

/-- A session state whose expense is set (to zero) and whose three card
fields are set non-empty. -/
def zeroExpenseState : SessionState where
  userdata := { initialUserData with
    expense := some 0,
    customer_credit_card := some "4111111111111111",
    customer_credit_card_expiry := some "12/30",
    customer_credit_card_cvv := some "123" }
  current := AgentName.checkout

/-- A session state satisfying the full checkout guard: nonzero expense and
three non-empty card fields. -/
def readyState : SessionState where
  userdata := { initialUserData with
    expense := some 20,
    customer_credit_card := some "4111111111111111",
    customer_credit_card_expiry := some "12/30",
    customer_credit_card_cvv := some "123" }
  current := AgentName.checkout

/-- The spec invariant on the expense field: unset, or a decimal ≥ 0. -/
def expenseInvariant (u : UserData) : Prop :=
  ∀ q : ℚ, u.expense = some q → 0 ≤ q

/-- The user-data record `update_credit_card` produces (named so that its
frame conditions can be stated field by field). -/
def updateCardRecord (number expiry cvv : String) (st : SessionState) :
    UserData :=
  { st.userdata with
      customer_credit_card := some number,
      customer_credit_card_expiry := some expiry,
      customer_credit_card_cvv := some cvv }

/-! ### Properties of `_truncate_chat_ctx` -/

theorem valid_item_false_false (it : ChatItem) :
    _valid_item false false it = true ↔
      it.isSystemMessage = false ∧ it.isFunctionCallType = false := by
  cases h1 : it.isSystemMessage <;> cases h2 : it.isFunctionCallType <;>
    simp [_valid_item, h1, h2]

theorem valid_item_false_true (it : ChatItem) :
    _valid_item false true it = true ↔ it.isSystemMessage = false := by
  cases h1 : it.isSystemMessage <;> simp [_valid_item, h1]

theorem truncateLoop_all_valid (ksm kfc : Bool) (n : Nat) :
    ∀ (l acc : List ChatItem),
      (∀ it ∈ acc, _valid_item ksm kfc it = true) →
      ∀ it ∈ truncateLoop ksm kfc n l acc, _valid_item ksm kfc it = true := by
  intro l
  induction l with
  | nil =>
    intro acc hacc it hit
    simp only [truncateLoop] at hit
    exact hacc it hit
  | cons x rest ih =>
    intro acc hacc it hit
    simp only [truncateLoop] at hit
    by_cases hv : _valid_item ksm kfc x = true
    · rw [if_pos hv] at hit
      have hacc' : ∀ it ∈ acc ++ [x], _valid_item ksm kfc it = true := by
        intro it h
        rcases List.mem_append.mp h with h | h
        · exact hacc it h
        · simp only [List.mem_singleton] at h
          subst h
          exact hv
      by_cases hn : n ≤ (acc ++ [x]).length
      · rw [if_pos hn] at hit
        exact hacc' it hit
      · rw [if_neg hn] at hit
        exact ih (acc ++ [x]) hacc' it hit
    · rw [if_neg hv] at hit
      by_cases hn : n ≤ acc.length
      · rw [if_pos hn] at hit
        exact hacc it hit
      · rw [if_neg hn] at hit
        exact ih acc hacc it hit

theorem truncateLoop_length_le (ksm kfc : Bool) (n : Nat) :
    ∀ (l acc : List ChatItem), acc.length < n →
      (truncateLoop ksm kfc n l acc).length ≤ n := by
  intro l
  induction l with
  | nil =>
    intro acc h
    simp only [truncateLoop]
    omega
  | cons x rest ih =>
    intro acc h
    simp only [truncateLoop]
    by_cases hv : _valid_item ksm kfc x = true
    · rw [if_pos hv]
      by_cases hn : n ≤ (acc ++ [x]).length
      · rw [if_pos hn]
        simp only [List.length_append, List.length_singleton]
        omega
      · rw [if_neg hn]
        apply ih
        have hx1 : (acc ++ [x]).length = acc.length + 1 := by simp
        rw [hx1] at hn ⊢
        omega
    · rw [if_neg hv]
      by_cases hn : n ≤ acc.length
      · rw [if_pos hn]
        omega
      · rw [if_neg hn]
        exact ih acc (by omega)

theorem truncateLoop_zero_length (ksm kfc : Bool) :
    ∀ (l acc : List ChatItem),
      (truncateLoop ksm kfc 0 l acc).length ≤ acc.length + 1 := by
  intro l acc
  cases l with
  | nil =>
    simp only [truncateLoop]
    omega
  | cons x rest =>
    simp only [truncateLoop]
    by_cases hv : _valid_item ksm kfc x = true
    · rw [if_pos hv, if_pos (Nat.zero_le _)]
      simp
    · rw [if_neg hv, if_pos (Nat.zero_le _)]
      omega

theorem truncateLoop_keeps_all (ksm kfc : Bool) (n : Nat) :
    ∀ (l acc : List ChatItem),
      (∀ it ∈ l, _valid_item ksm kfc it = true) →
      acc.length + l.length ≤ n →
      truncateLoop ksm kfc n l acc = acc ++ l := by
  intro l
  induction l with
  | nil =>
    intro acc _ _
    simp [truncateLoop]
  | cons x rest ih =>
    intro acc hval hlen
    have hvx : _valid_item ksm kfc x = true := hval x (List.mem_cons_self x rest)
    simp only [truncateLoop, if_pos hvx]
    by_cases hn : n ≤ (acc ++ [x]).length
    · rw [if_pos hn]
      have hrest : rest = [] := by
        apply List.length_eq_zero.mp
        simp only [List.length_cons] at hlen
        simp only [List.length_append, List.length_singleton] at hn
        omega
      subst hrest
      simp
    · rw [if_neg hn]
      rw [ih (acc ++ [x]) (fun it h => hval it (List.mem_cons_of_mem x h))
        (by
          have hx1 : (acc ++ [x]).length = acc.length + 1 := by simp
          rw [hx1]
          simp only [List.length_cons] at hlen
          omega)]
      simp

theorem truncateLoop_zero_single (ksm kfc : Bool) (x : ChatItem)
    (hv : _valid_item ksm kfc x = true) :
    truncateLoop ksm kfc 0 [x] [] = [x] := by
  simp [truncateLoop, hv]

theorem dropLeadingToolItems_subset :
    ∀ (l : List ChatItem), ∀ it ∈ dropLeadingToolItems l, it ∈ l := by
  intro l
  induction l with
  | nil =>
    intro it h
    simp [dropLeadingToolItems] at h
  | cons x rest ih =>
    intro it h
    simp only [dropLeadingToolItems] at h
    by_cases hx : x.isFunctionCallType = true
    · rw [if_pos hx] at h
      exact List.mem_cons_of_mem x (ih it h)
    · rw [if_neg hx] at h
      exact h

theorem dropLeadingToolItems_length_le :
    ∀ (l : List ChatItem), (dropLeadingToolItems l).length ≤ l.length := by
  intro l
  induction l with
  | nil => simp [dropLeadingToolItems]
  | cons x rest ih =>
    simp only [dropLeadingToolItems]
    by_cases hx : x.isFunctionCallType = true
    · rw [if_pos hx]
      simp only [List.length_cons]
      omega
    · rw [if_neg hx]

theorem dropLeadingToolItems_head :
    ∀ (l : List ChatItem) (it : ChatItem),
      (dropLeadingToolItems l).head? = some it →
      it.isFunctionCallType = false := by
  intro l
  induction l with
  | nil =>
    intro it h
    simp [dropLeadingToolItems] at h
  | cons x rest ih =>
    intro it h
    simp only [dropLeadingToolItems] at h
    by_cases hx : x.isFunctionCallType = true
    · rw [if_pos hx] at h
      exact ih it h
    · rw [if_neg hx] at h
      simp only [List.head?_cons, Option.some.injEq] at h
      subst h
      exact Bool.not_eq_true _ |>.mp hx

theorem dropLeadingToolItems_of_head (l : List ChatItem)
    (h : ∀ it, l.head? = some it → it.isFunctionCallType = false) :
    dropLeadingToolItems l = l := by
  cases l with
  | nil => rfl
  | cons x rest =>
    have hx := h x (by simp)
    simp [dropLeadingToolItems, hx]

theorem truncate_all_valid (items : List ChatItem) (n : Nat) (ksm kfc : Bool) :
    ∀ it ∈ _truncate_chat_ctx items n ksm kfc,
      _valid_item ksm kfc it = true := by
  intro it hit
  have h1 := dropLeadingToolItems_subset _ it hit
  rw [List.mem_reverse] at h1
  exact truncateLoop_all_valid ksm kfc n items.reverse [] (by simp) it h1

theorem truncate_length_le (items : List ChatItem) (n : Nat) (ksm kfc : Bool) :
    (_truncate_chat_ctx items n ksm kfc).length ≤ max n 1 := by
  unfold _truncate_chat_ctx
  have hdrop := dropLeadingToolItems_length_le
    ((truncateLoop ksm kfc n items.reverse []).reverse)
  rw [List.length_reverse] at hdrop
  cases n with
  | zero =>
    have h0 := truncateLoop_zero_length ksm kfc items.reverse []
    simp only [List.length_nil] at h0
    omega
  | succ m =>
    have h1 := truncateLoop_length_le ksm kfc (m + 1) items.reverse []
      (by simp)
    omega

theorem truncate_head_not_tool (items : List ChatItem) (n : Nat)
    (ksm kfc : Bool) (it : ChatItem)
    (h : (_truncate_chat_ctx items n ksm kfc).head? = some it) :
    it.isFunctionCallType = false := by
  unfold _truncate_chat_ctx at h
  exact dropLeadingToolItems_head _ it h

/-- An already-truncated context is a fixed point of `_truncate_chat_ctx`:
every item passes the filter, the length already fits the window, and the
head is not a tool-call item. -/
theorem truncate_fixed (T : List ChatItem) (n : Nat) (ksm kfc : Bool)
    (hvalid : ∀ it ∈ T, _valid_item ksm kfc it = true)
    (hlen : T.length ≤ max n 1)
    (hhead : ∀ it, T.head? = some it → it.isFunctionCallType = false) :
    _truncate_chat_ctx T n ksm kfc = T := by
  cases n with
  | zero =>
    have hlen1 : T.length ≤ 1 := by omega
    cases T with
    | nil => rfl
    | cons x tail =>
      cases tail with
      | nil =>
        have hvx := hvalid x (by simp)
        have hhx := hhead x (by simp)
        unfold _truncate_chat_ctx
        rw [show ([x] : List ChatItem).reverse = [x] from rfl]
        rw [truncateLoop_zero_single ksm kfc x hvx]
        rw [show ([x] : List ChatItem).reverse = [x] from rfl]
        simp [dropLeadingToolItems, hhx]
      | cons y tail2 => simp at hlen1
  | succ m =>
    have hkeep := truncateLoop_keeps_all ksm kfc (m + 1) T.reverse []
      (by intro it h; exact hvalid it (List.mem_reverse.mp h))
      (by simp only [List.length_nil, List.length_reverse, Nat.zero_add]
          omega)
    unfold _truncate_chat_ctx
    rw [hkeep]
    simp only [List.nil_append, List.reverse_reverse]
    exact dropLeadingToolItems_of_head T hhead

/-! ### Claim theorems for the truncation algorithm -/

/-- C8: for every input sequence, keep-count and retention flags, applying
`_truncate_chat_ctx` to its own output (with the same parameters) yields
that output unchanged. -/
theorem claim_truncation_idempotent (items : List ChatItem) (n : Nat)
    (ksm kfc : Bool) :
    _truncate_chat_ctx (_truncate_chat_ctx items n ksm kfc) n ksm kfc =
      _truncate_chat_ctx items n ksm kfc :=
  truncate_fixed _ n ksm kfc (truncate_all_valid items n ksm kfc)
    (truncate_length_le items n ksm kfc)
    (fun it h => truncate_head_not_tool items n ksm kfc it h)

/-- C3 counterexample: with keep-count `N = 0` the loop's stop check runs
only after an item may already have been appended, so one item survives and
the result length exceeds `N`. -/
theorem claim_truncation_bound_counterexample :
    ¬ ((_truncate_chat_ctx [ChatItem.message Role.user "hola" "u1"] 0 false
        false).length ≤ 0) := by decide

/-- C3 (amended): for every input, keep-count `N` and retention flags, the
truncation result has length at most `max N 1` (so at most `N` whenever
`N ≥ 1`; for `N = 0` one item can survive), its first element, if any, is
never a function_call / function_call_output item, and an input whose
front-trimming removes everything yields the empty sequence rather than an
error. -/
theorem claim_truncation_bound_amended :
    (∀ (items : List ChatItem) (n : Nat) (ksm kfc : Bool),
      (_truncate_chat_ctx items n ksm kfc).length ≤ max n 1 ∧
      (_truncate_chat_ctx items n ksm kfc).head?.all
        (fun it => !it.isFunctionCallType) = true) ∧
    _truncate_chat_ctx [ChatItem.function_call "f" "a" "c1"] 6 false true
      = [] := by
  constructor
  · intro items n ksm kfc
    refine ⟨truncate_length_le items n ksm kfc, ?_⟩
    cases hh : (_truncate_chat_ctx items n ksm kfc).head? with
    | none => rfl
    | some it =>
      have := truncate_head_not_tool items n ksm kfc it hh
      simp [Option.all, this]
  · decide

/-- C2 counterexample: invoked with its default parameters
(`keep_function_call=False`), `_truncate_chat_ctx` drops a function_call
item instead of retaining it. -/
theorem claim_default_retention_counterexample :
    ChatItem.function_call "f" "a" "c1" ∉
      _truncate_chat_ctx_default
        [ChatItem.function_call "f" "a" "c1",
         ChatItem.message Role.user "hola" "u1"] := by decide

/-- C2 (amended): with the function's default parameters, system messages
and function_call / function_call_output items are all dropped; tool-call
history survives only because the `on_enter` call site passes
`keep_function_call=True` explicitly, in which case system messages are
still dropped while function_call items can be retained. -/
theorem claim_default_retention_amended :
    (∀ (items : List ChatItem) (it : ChatItem),
      it ∈ _truncate_chat_ctx_default items →
        it.isSystemMessage = false ∧ it.isFunctionCallType = false) ∧
    (∀ (items : List ChatItem) (it : ChatItem),
      it ∈ _truncate_chat_ctx items 6 false true →
        it.isSystemMessage = false) ∧
    _truncate_chat_ctx
      [ChatItem.message Role.user "hola" "u1",
       ChatItem.function_call "f" "a" "c1",
       ChatItem.function_call_output "ok" "c1"] 6 false true
      = [ChatItem.message Role.user "hola" "u1",
         ChatItem.function_call "f" "a" "c1",
         ChatItem.function_call_output "ok" "c1"] := by
  refine ⟨?_, ?_, by decide⟩
  · intro items it hit
    exact (valid_item_false_false it).mp
      (truncate_all_valid items 6 false false it hit)
  · intro items it hit
    exact (valid_item_false_true it).mp
      (truncate_all_valid items 6 false true it hit)

/-- Witness for the amended C2 theorem at a concrete input: a retained user
message is neither a system message nor a tool-call item. -/
theorem claim_default_retention_amended_witness :
    (ChatItem.message Role.user "hola" "u1").isSystemMessage = false ∧
    (ChatItem.message Role.user "hola" "u1").isFunctionCallType = false :=
  claim_default_retention_amended.1 [ChatItem.message Role.user "hola" "u1"]
    (ChatItem.message Role.user "hola" "u1") (by decide)

/-! ### Properties of the tools and the handoff protocol -/

theorem agents_greeter : agents "greeter" = some AgentName.greeter := by
  decide

theorem agents_reservation :
    agents "reservation" = some AgentName.reservation := by decide

theorem agents_takeaway : agents "takeaway" = some AgentName.takeaway := by
  decide

theorem agents_checkout : agents "checkout" = some AgentName.checkout := by
  decide

/-- C6: `to_checkout` with an empty order returns exactly the informational
string and changes nothing; with a non-empty order it hands off to the
checkout agent, recording the old current agent in `prev_agent`. -/
theorem claim_to_checkout_guard (st : SessionState) :
    (st.userdata.order = [] →
      stepTool ToolCall.to_checkout st =
        some (st,
          ToolResult.reply
            "No takeaway order found. Please make an order first.")) ∧
    (st.userdata.order ≠ [] →
      stepTool ToolCall.to_checkout st =
        some ({ userdata := { st.userdata with prev_agent := some st.current },
                current := AgentName.checkout },
          ToolResult.handoff AgentName.checkout "Transferring to checkout.")) := by
  constructor
  · intro h
    simp [stepTool, execTool, to_checkout, h, applyDirective]
  · intro h
    have hne : st.userdata.order.isEmpty = false := by
      cases ho : st.userdata.order with
      | nil => exact absurd ho h
      | cons a l => rfl
    simp [stepTool, execTool, to_checkout, hne, _transfer_to_agent,
      agents_takeaway, agents_checkout, applyDirective]

/-- Witness for C6 at concrete inputs: the fresh session store has an empty
order and is refused; an order of one pizza is handed off to checkout. -/
theorem claim_to_checkout_guard_witness :
    stepTool ToolCall.to_checkout
        { userdata := initialUserData, current := AgentName.takeaway } =
      some ({ userdata := initialUserData, current := AgentName.takeaway },
        ToolResult.reply
          "No takeaway order found. Please make an order first.") ∧
    stepTool ToolCall.to_checkout
        { userdata := { initialUserData with order := ["Pizza"] },
          current := AgentName.takeaway } =
      some ({ userdata :=
                { initialUserData with
                    order := ["Pizza"], prev_agent := some AgentName.takeaway },
              current := AgentName.checkout },
        ToolResult.handoff AgentName.checkout "Transferring to checkout.") :=
  ⟨(claim_to_checkout_guard _).1 rfl,
   (claim_to_checkout_guard _).2 (by decide)⟩

/-- C1 counterexample: in `zeroExpenseState` the expense is set and all
three card fields are set (non-empty), yet `confirm_checkout` returns the
informational string and performs no transition, because the Python guard
`not userdata.expense` also rejects a zero expense.  The state is reachable:
`confirm_expense 0` produces exactly this expense value. -/
theorem claim_confirm_checkout_counterexample :
    zeroExpenseState.userdata.expense.isSome = true ∧
    zeroExpenseState.userdata.customer_credit_card = some "4111111111111111" ∧
    zeroExpenseState.userdata.customer_credit_card_expiry = some "12/30" ∧
    zeroExpenseState.userdata.customer_credit_card_cvv = some "123" ∧
    stepTool ToolCall.confirm_checkout zeroExpenseState =
      some (zeroExpenseState,
        ToolResult.reply "Please confirm the expense first.") ∧
    zeroExpenseState.userdata.checked_out = false := by
  refine ⟨rfl, rfl, rfl, rfl, ?_, rfl⟩
  decide

/-- C1 (amended): `confirm_checkout` transitions to the greeter (setting
`checked_out`) iff the expense is set to a nonzero value and all three card
fields are set non-empty (Python truthiness); otherwise it returns an
informational string and leaves the whole session state, `checked_out` and
current agent included, unchanged. -/
theorem claim_confirm_checkout_amended (st : SessionState) :
    (checkoutReady st.userdata = true →
      stepTool ToolCall.confirm_checkout st =
        some ({ userdata :=
                  { st.userdata with
                      checked_out := true, prev_agent := some st.current },
                current := AgentName.greeter },
          ToolResult.handoff AgentName.greeter "Transferring to greeter.")) ∧
    (checkoutReady st.userdata = false →
      ∃ msg, stepTool ToolCall.confirm_checkout st =
        some (st, ToolResult.reply msg)) := by
  constructor
  · intro hready
    simp only [checkoutReady, Bool.and_eq_true] at hready
    obtain ⟨⟨⟨he, h1⟩, h2⟩, h3⟩ := hready
    simp [stepTool, execTool, confirm_checkout, he, h1, h2, h3, to_greeter,
      _transfer_to_agent, agents_greeter, applyDirective]
  · intro hready
    by_cases he : optRatTruthy st.userdata.expense = true
    · refine ⟨"Please provide the credit card information first.", ?_⟩
      have hcards : (!optStrTruthy st.userdata.customer_credit_card ||
          !optStrTruthy st.userdata.customer_credit_card_expiry ||
          !optStrTruthy st.userdata.customer_credit_card_cvv) = true := by
        cases hb : optStrTruthy st.userdata.customer_credit_card <;>
          cases hc : optStrTruthy st.userdata.customer_credit_card_expiry <;>
            cases hd : optStrTruthy st.userdata.customer_credit_card_cvv <;>
              simp_all [checkoutReady]
      simp [stepTool, execTool, confirm_checkout, he, hcards, applyDirective]
    · refine ⟨"Please confirm the expense first.", ?_⟩
      simp only [Bool.not_eq_true] at he
      simp [stepTool, execTool, confirm_checkout, he, applyDirective]

/-- Witness for the amended C1 theorem at concrete inputs: a fully ready
state is handed off to the greeter with `checked_out` set, the fresh store
is refused with no change. -/
theorem claim_confirm_checkout_amended_witness :
    stepTool ToolCall.confirm_checkout readyState =
      some ({ userdata :=
                { readyState.userdata with
                    checked_out := true, prev_agent := some AgentName.checkout },
              current := AgentName.greeter },
        ToolResult.handoff AgentName.greeter "Transferring to greeter.") ∧
    (∃ msg, stepTool ToolCall.confirm_checkout initialState =
      some (initialState, ToolResult.reply msg)) :=
  ⟨(claim_confirm_checkout_amended readyState).1 (by decide),
   (claim_confirm_checkout_amended initialState).2 (by decide)⟩

/-- Shared shape lemma for every tool step: the result is either a plain
string reply with `prev_agent` and the current agent untouched, or a handoff
whose target was resolved from the registry by a literal name, whose message
is the literal transfer text, and which records the old current agent in
`prev_agent`; moreover the expense field is untouched except by
`confirm_expense`, which stores exactly its argument. -/
theorem step_shape (tc : ToolCall) (st : SessionState)
    (stp : SessionState × ToolResult) (hstep : stepTool tc st = some stp) :
    ((∃ m, stp.2 = ToolResult.reply m ∧
        stp.1.userdata.prev_agent = st.userdata.prev_agent ∧
        stp.1.current = st.current) ∨
      (∃ name target, agents name = some target ∧
        stp.2 = ToolResult.handoff target ("Transferring to " ++ name ++ ".") ∧
        stp.1.current = target ∧
        stp.1.userdata.prev_agent = some st.current)) ∧
    (stp.1.userdata.expense = st.userdata.expense ∨
      ∃ e : ℚ, tc = ToolCall.confirm_expense e ∧
        stp.1.userdata.expense = some e) := by
  cases tc with
  | update_name n =>
    simp only [stepTool, execTool, update_name, applyDirective,
      Option.some.injEq] at hstep
    subst hstep
    exact ⟨Or.inl ⟨_, rfl, rfl, rfl⟩, Or.inl rfl⟩
  | update_phone p =>
    simp only [stepTool, execTool, update_phone, applyDirective,
      Option.some.injEq] at hstep
    subst hstep
    exact ⟨Or.inl ⟨_, rfl, rfl, rfl⟩, Or.inl rfl⟩
  | to_greeter =>
    simp only [stepTool, execTool, to_greeter, _transfer_to_agent,
      agents_greeter, applyDirective, Option.some.injEq] at hstep
    subst hstep
    exact ⟨Or.inr ⟨"greeter", AgentName.greeter, agents_greeter, rfl, rfl, rfl⟩,
      Or.inl rfl⟩
  | to_reservation =>
    simp only [stepTool, execTool, to_reservation, _transfer_to_agent,
      agents_reservation, applyDirective, Option.some.injEq] at hstep
    subst hstep
    exact ⟨Or.inr ⟨"reservation", AgentName.reservation, agents_reservation,
      rfl, rfl, rfl⟩, Or.inl rfl⟩
  | to_takeaway =>
    simp only [stepTool, execTool, to_takeaway, _transfer_to_agent,
      agents_takeaway, applyDirective, Option.some.injEq] at hstep
    subst hstep
    exact ⟨Or.inr ⟨"takeaway", AgentName.takeaway, agents_takeaway,
      rfl, rfl, rfl⟩, Or.inl rfl⟩
  | update_reservation_time t =>
    simp only [stepTool, execTool, update_reservation_time, applyDirective,
      Option.some.injEq] at hstep
    subst hstep
    exact ⟨Or.inl ⟨_, rfl, rfl, rfl⟩, Or.inl rfl⟩
  | confirm_reservation =>
    by_cases h1 : (!optStrTruthy st.userdata.customer_name ||
        !optStrTruthy st.userdata.customer_phone) = true
    · simp only [stepTool, execTool, confirm_reservation, if_pos h1,
        applyDirective, Option.some.injEq] at hstep
      subst hstep
      exact ⟨Or.inl ⟨_, rfl, rfl, rfl⟩, Or.inl rfl⟩
    · by_cases h2 : (!optStrTruthy st.userdata.reservation_time) = true
      · simp only [stepTool, execTool, confirm_reservation, if_neg h1,
          if_pos h2, applyDirective, Option.some.injEq] at hstep
        subst hstep
        exact ⟨Or.inl ⟨_, rfl, rfl, rfl⟩, Or.inl rfl⟩
      · simp only [stepTool, execTool, confirm_reservation, if_neg h1,
          if_neg h2, _transfer_to_agent, agents_greeter, applyDirective,
          Option.some.injEq] at hstep
        subst hstep
        exact ⟨Or.inr ⟨"greeter", AgentName.greeter, agents_greeter,
          rfl, rfl, rfl⟩, Or.inl rfl⟩
  | update_order items =>
    simp only [stepTool, execTool, update_order, applyDirective,
      Option.some.injEq] at hstep
    subst hstep
    exact ⟨Or.inl ⟨_, rfl, rfl, rfl⟩, Or.inl rfl⟩
  | to_checkout =>
    by_cases h1 : st.userdata.order.isEmpty = true
    · simp only [stepTool, execTool, to_checkout, if_pos h1,
        applyDirective, Option.some.injEq] at hstep
      subst hstep
      exact ⟨Or.inl ⟨_, rfl, rfl, rfl⟩, Or.inl rfl⟩
    · simp only [stepTool, execTool, to_checkout, if_neg h1,
        _transfer_to_agent, agents_checkout, applyDirective,
        Option.some.injEq] at hstep
      subst hstep
      exact ⟨Or.inr ⟨"checkout", AgentName.checkout, agents_checkout,
        rfl, rfl, rfl⟩, Or.inl rfl⟩
  | confirm_expense e =>
    simp only [stepTool, execTool, confirm_expense, applyDirective,
      Option.some.injEq] at hstep
    subst hstep
    exact ⟨Or.inl ⟨_, rfl, rfl, rfl⟩, Or.inr ⟨e, rfl, rfl⟩⟩
  | update_credit_card n ex cv =>
    simp only [stepTool, execTool, update_credit_card, applyDirective,
      Option.some.injEq] at hstep
    subst hstep
    exact ⟨Or.inl ⟨_, rfl, rfl, rfl⟩, Or.inl rfl⟩
  | confirm_checkout =>
    by_cases h1 : (!optRatTruthy st.userdata.expense) = true
    · simp only [stepTool, execTool, confirm_checkout, if_pos h1,
        applyDirective, Option.some.injEq] at hstep
      subst hstep
      exact ⟨Or.inl ⟨_, rfl, rfl, rfl⟩, Or.inl rfl⟩
    · by_cases h2 : (!optStrTruthy st.userdata.customer_credit_card ||
          !optStrTruthy st.userdata.customer_credit_card_expiry ||
          !optStrTruthy st.userdata.customer_credit_card_cvv) = true
      · simp only [stepTool, execTool, confirm_checkout, if_neg h1,
          if_pos h2, applyDirective, Option.some.injEq] at hstep
        subst hstep
        exact ⟨Or.inl ⟨_, rfl, rfl, rfl⟩, Or.inl rfl⟩
      · simp only [stepTool, execTool, confirm_checkout, if_neg h1,
          if_neg h2, to_greeter, _transfer_to_agent, agents_greeter,
          applyDirective, Option.some.injEq] at hstep
        subst hstep
        exact ⟨Or.inr ⟨"greeter", AgentName.greeter, agents_greeter,
          rfl, rfl, rfl⟩, Or.inl rfl⟩

/-- C4: handoff is all-or-nothing.  Every tool execution either returns a
plain string and leaves both `prev_agent` and the current agent unchanged,
or returns a handoff, in which case `prev_agent` becomes the agent that was
current immediately before the transition and the current agent becomes the
registry-resolved target; no tool updates `prev_agent` without transitioning
or vice versa. -/
theorem claim_handoff_all_or_nothing (tc : ToolCall) (st : SessionState)
    (stnew : SessionState) (r : ToolResult)
    (hstep : stepTool tc st = some (stnew, r)) :
    ((∃ m, r = ToolResult.reply m) ∧
      stnew.userdata.prev_agent = st.userdata.prev_agent ∧
      stnew.current = st.current) ∨
    ((∃ name m, r = ToolResult.handoff stnew.current m ∧
        agents name = some stnew.current) ∧
      stnew.userdata.prev_agent = some st.current) := by
  rcases (step_shape tc st (stnew, r) hstep).1 with
    ⟨m, hr, hp, hc⟩ | ⟨name, target, ha, hr, hc, hp⟩
  · exact Or.inl ⟨⟨m, hr⟩, hp, hc⟩
  · refine Or.inr ⟨⟨name, "Transferring to " ++ name ++ ".", ?_, ?_⟩, hp⟩
    · rw [hc]
      exact hr
    · rw [hc]
      exact ha

/-- Witness for C4 at a concrete input: `to_greeter` from the fresh session
state lands in the handoff branch of the disjunction. -/
theorem claim_handoff_all_or_nothing_witness :
    ((∃ m, (ToolResult.handoff AgentName.greeter "Transferring to greeter.")
        = ToolResult.reply m) ∧
      ({ userdata := { initialUserData with prev_agent := some AgentName.greeter },
         current := AgentName.greeter } : SessionState).userdata.prev_agent
        = initialState.userdata.prev_agent ∧
      ({ userdata := { initialUserData with prev_agent := some AgentName.greeter },
         current := AgentName.greeter } : SessionState).current
        = initialState.current) ∨
    ((∃ name m,
        (ToolResult.handoff AgentName.greeter "Transferring to greeter.")
          = ToolResult.handoff
              ({ userdata :=
                   { initialUserData with prev_agent := some AgentName.greeter },
                 current := AgentName.greeter } : SessionState).current m ∧
        agents name = some
          ({ userdata :=
               { initialUserData with prev_agent := some AgentName.greeter },
             current := AgentName.greeter } : SessionState).current) ∧
      ({ userdata := { initialUserData with prev_agent := some AgentName.greeter },
         current := AgentName.greeter } : SessionState).userdata.prev_agent
        = some initialState.current) :=
  claim_handoff_all_or_nothing ToolCall.to_greeter initialState
    { userdata := { initialUserData with prev_agent := some AgentName.greeter },
      current := AgentName.greeter }
    (ToolResult.handoff AgentName.greeter "Transferring to greeter.")
    (by decide)

/-- C7 counterexample: `confirm_expense` stores its argument without any
validation, so passing `-1` from the fresh session state (whose expense is
unset, hence satisfies the invariant) yields a state whose expense is a
negative decimal, violating the invariant. -/
theorem claim_expense_nonneg_counterexample :
    expenseInvariant initialUserData ∧
    ∃ stp, stepTool (ToolCall.confirm_expense (-1)) initialState = some stp ∧
      stp.1.userdata.expense = some (-1) ∧
      ¬ expenseInvariant stp.1.userdata := by
  refine ⟨fun q hq => Option.noConfusion hq, _, rfl, rfl, ?_⟩
  intro hinv
  have h := hinv (-1) rfl
  norm_num at h

/-- C7 (amended): the expense invariant (unset or ≥ 0) is preserved by every
tool step provided the argument of any `confirm_expense` call is ≥ 0; the
code itself never validates the argument, so a negative model-supplied value
breaks the invariant. -/
theorem claim_expense_nonneg_amended (tc : ToolCall) (st : SessionState)
    (stp : SessionState × ToolResult) (hstep : stepTool tc st = some stp)
    (hargs : ∀ e : ℚ, tc = ToolCall.confirm_expense e → 0 ≤ e)
    (hinv : expenseInvariant st.userdata) :
    expenseInvariant stp.1.userdata := by
  rcases (step_shape tc st stp hstep).2 with he | ⟨e, hte, he⟩
  · intro q hq
    rw [he] at hq
    exact hinv q hq
  · intro q hq
    rw [he] at hq
    have hq2 := Option.some.inj hq
    subst hq2
    exact hargs e hte

/-- Witness for the amended C7 theorem at a concrete input: confirming an
expense of 20 from the fresh session state keeps the invariant. -/
theorem claim_expense_nonneg_amended_witness :
    expenseInvariant { initialUserData with expense := some (20 : ℚ) } :=
  claim_expense_nonneg_amended (ToolCall.confirm_expense 20) initialState
    ({ userdata := { initialUserData with expense := some (20 : ℚ) },
       current := AgentName.greeter },
      ToolResult.reply ("The expense is confirmed to be " ++ toString (20 : ℚ)))
    rfl
    (by
      intro e he
      injection he with h
      subst h
      norm_num)
    (fun q hq => Option.noConfusion hq)

/-- C9: `update_order` replaces the whole order sequence with its argument
(never appends) and `update_credit_card` overwrites exactly the three card
fields; both return a plain string reply, perform no transition, and leave
every other SessionStore field, `prev_agent` and `checked_out` included,
unchanged. -/
theorem claim_field_update_frame (items : List String)
    (number expiry cvv : String) (st : SessionState) :
    stepTool (ToolCall.update_order items) st =
      some ({ userdata := { st.userdata with order := items },
              current := st.current },
        ToolResult.reply
          ("The order is updated to " ++ String.intercalate ", " items)) ∧
    ({ st.userdata with order := items }).order = items ∧
    ({ st.userdata with order := items }).customer_name
      = st.userdata.customer_name ∧
    ({ st.userdata with order := items }).customer_phone
      = st.userdata.customer_phone ∧
    ({ st.userdata with order := items }).reservation_time
      = st.userdata.reservation_time ∧
    ({ st.userdata with order := items }).customer_credit_card
      = st.userdata.customer_credit_card ∧
    ({ st.userdata with order := items }).customer_credit_card_expiry
      = st.userdata.customer_credit_card_expiry ∧
    ({ st.userdata with order := items }).customer_credit_card_cvv
      = st.userdata.customer_credit_card_cvv ∧
    ({ st.userdata with order := items }).expense = st.userdata.expense ∧
    ({ st.userdata with order := items }).checked_out
      = st.userdata.checked_out ∧
    ({ st.userdata with order := items }).prev_agent
      = st.userdata.prev_agent ∧
    stepTool (ToolCall.update_credit_card number expiry cvv) st =
      some ({ userdata :=
                { st.userdata with
                    customer_credit_card := some number,
                    customer_credit_card_expiry := some expiry,
                    customer_credit_card_cvv := some cvv },
              current := st.current },
        ToolResult.reply ("The credit card number is updated to " ++ number)) ∧
    (updateCardRecord number expiry cvv st).customer_credit_card
      = some number ∧
    (updateCardRecord number expiry cvv st).customer_credit_card_expiry
      = some expiry ∧
    (updateCardRecord number expiry cvv st).customer_credit_card_cvv
      = some cvv ∧
    (updateCardRecord number expiry cvv st).customer_name
      = st.userdata.customer_name ∧
    (updateCardRecord number expiry cvv st).customer_phone
      = st.userdata.customer_phone ∧
    (updateCardRecord number expiry cvv st).reservation_time
      = st.userdata.reservation_time ∧
    (updateCardRecord number expiry cvv st).order = st.userdata.order ∧
    (updateCardRecord number expiry cvv st).expense = st.userdata.expense ∧
    (updateCardRecord number expiry cvv st).checked_out
      = st.userdata.checked_out ∧
    (updateCardRecord number expiry cvv st).prev_agent
      = st.userdata.prev_agent :=
  ⟨rfl, rfl, rfl, rfl, rfl, rfl, rfl, rfl, rfl, rfl, rfl, rfl,
   rfl, rfl, rfl, rfl, rfl, rfl, rfl, rfl, rfl, rfl⟩

/-- C10: every handoff a tool produces carries a target resolved from the
shared registry by a literal name together with the message
`Transferring to {name}.`; the shared `to_greeter` tool is offered by the
Reservation, Takeaway and Checkout agents and always targets the agent
registered under "greeter", and `confirm_checkout` hands off through it on
success. -/
theorem claim_transfer_message_registry :
    (∀ (tc : ToolCall) (st : SessionState) (stp : SessionState × ToolResult),
      stepTool tc st = some stp →
      ∀ (t : AgentName) (m : String), stp.2 = ToolResult.handoff t m →
        ∃ name, agents name = some t ∧ stp.1.current = t ∧
          m = "Transferring to " ++ name ++ ".") ∧
    (∀ (st : SessionState) (u : UserData) (r : ToolResult),
      to_greeter st = some (u, r) →
        r = ToolResult.handoff AgentName.greeter "Transferring to greeter.") ∧
    ToolName.to_greeter ∈ agentTools AgentName.reservation ∧
    ToolName.to_greeter ∈ agentTools AgentName.takeaway ∧
    ToolName.to_greeter ∈ agentTools AgentName.checkout ∧
    (∀ st : SessionState, checkoutReady st.userdata = true →
      ∃ u, confirm_checkout st =
        some (u, ToolResult.handoff AgentName.greeter
          "Transferring to greeter.")) := by
  refine ⟨?_, ?_, by decide, by decide, by decide, ?_⟩
  · intro tc st stp hstep t m hm
    rcases (step_shape tc st stp hstep).1 with
      ⟨m0, hr, _, _⟩ | ⟨name, target, ha, hr, hc, _⟩
    · rw [hm] at hr
      exact ToolResult.noConfusion hr
    · rw [hm] at hr
      obtain ⟨ht, hmsg⟩ := ToolResult.handoff.inj hr
      subst ht
      exact ⟨name, ha, hc, hmsg⟩
  · intro st u r h
    simp only [to_greeter, _transfer_to_agent, agents_greeter,
      Option.some.injEq, Prod.mk.injEq] at h
    rw [← h.2]
    decide
  · intro st hready
    simp only [checkoutReady, Bool.and_eq_true] at hready
    obtain ⟨⟨⟨he, h1⟩, h2⟩, h3⟩ := hready
    refine ⟨{ st.userdata with
        checked_out := true, prev_agent := some st.current }, ?_⟩
    simp [confirm_checkout, he, h1, h2, h3, to_greeter, _transfer_to_agent,
      agents_greeter]

/-- Witness for C10 at a concrete input: the handoff produced by
`to_greeter` from the fresh session state resolves through the registry. -/
theorem claim_transfer_message_registry_witness :
    ∃ name, agents name = some AgentName.greeter ∧
      ({ userdata := { initialUserData with prev_agent := some AgentName.greeter },
         current := AgentName.greeter } : SessionState).current
        = AgentName.greeter ∧
      ("Transferring to greeter." : String)
        = "Transferring to " ++ name ++ "." :=
  claim_transfer_message_registry.1 ToolCall.to_greeter initialState
    ({ userdata := { initialUserData with prev_agent := some AgentName.greeter },
       current := AgentName.greeter },
      ToolResult.handoff AgentName.greeter "Transferring to greeter.")
    (by decide) AgentName.greeter "Transferring to greeter." rfl

/-- C5: whenever an agent becomes current, `on_enter` rebuilds its context
as: a copy of its own items, followed (only if a previous agent is set) by
the previous agent's context truncated with `keep_function_call=True` and
with every item whose id already occurs in the copy removed, followed by
exactly one appended system message whose content ends in the literal
summary string; afterwards exactly one reply generation is requested with
tool invocation disabled (`tool_choice="none"`). -/
theorem claim_on_enter_context (agent_name : String)
    (own_items : List ChatItem) (prev_items : Option (List ChatItem))
    (summary : String) (fresh_id : String) :
    (on_enter agent_name own_items prev_items summary fresh_id).items =
      own_items ++
        (match prev_items with
          | none => []
          | some pitems =>
            (_truncate_chat_ctx pitems 6 false true).filter
              (fun item => !(own_items.map ChatItem.id).contains item.id)) ++
        [ChatItem.message Role.system
          ("Eres el agente " ++ agent_name ++
            ". Los datos actuales del usuario son " ++ summary) fresh_id] ∧
    (∃ before,
      ("Eres el agente " ++ agent_name ++
        ". Los datos actuales del usuario son " ++ summary)
        = before ++ summary) ∧
    EnterResult.reply_tool_choices
        (on_enter agent_name own_items prev_items summary fresh_id)
      = ["none"] := by
  refine ⟨?_,
    ⟨"Eres el agente " ++ agent_name ++ ". Los datos actuales del usuario son ",
      rfl⟩, rfl⟩
  cases prev_items with
  | none => simp [on_enter]
  | some pitems => simp [on_enter]

end Restaurant
